import Mathlib

/-!
Verification development for the `plataformaCultural-ccb` backend.

The definitions below are a shallow embedding of the Python source under
`backend/`: the document database is a record of lists, Mongo queries become
`List.find?` / `List.filter`, route handlers become state-passing functions,
and float arithmetic is embedded as exact rational arithmetic over `ℚ`
(binary-float rounding error plays no role in any property proved here).
Dates are embedded as day ordinals (`Nat`): the source stores ISO
`YYYY-MM-DD` strings and compares them either after `strptime` parsing or
lexicographically, both of which are order-isomorphic to day ordinals.
Python string primitives (`split`, `replace`, `lower`, `upper`, `strip`,
`int(...)`) are re-implemented over `List Char` so that every definition is
kernel-executable.
-/

namespace CCB

/-! ### Python string primitives over `List Char` -/

/-- Boolean prefix test on character lists. -/
def prefixMatch : List Char → List Char → Bool
  | [], _ => true
  | _ :: _, [] => false
  | a :: as, b :: bs => a == b && prefixMatch as bs

/-- Boolean substring test on character lists (used to model a `$regex`
substring search whose pattern contains no metacharacters). -/
def substrMatch (needle : List Char) : List Char → Bool
  | [] => prefixMatch needle []
  | b :: bs => prefixMatch needle (b :: bs) || substrMatch needle bs

/-- Python `str.split(sep)` for a one-character separator. -/
def splitOnChar (sep : Char) : List Char → List (List Char)
  | [] => [[]]
  | c :: rest =>
    let r := splitOnChar sep rest
    if c == sep then [] :: r
    else
      match r with
      | [] => [[c]]
      | h :: t => (c :: h) :: t

/-- Python `str.replace(pat, rep)`: replaces every occurrence of a
non-empty pattern, scanning left to right. -/
def replaceAll (pat rep : List Char) (s : List Char) : List Char :=
  match s with
  | [] => []
  | c :: rest =>
    if pat ≠ [] && prefixMatch pat (c :: rest) then
      rep ++ replaceAll pat rep (List.drop (pat.length - 1) rest)
    else
      c :: replaceAll pat rep rest
termination_by s.length
decreasing_by
  · simp only [List.length_drop, List.length_cons]
    omega
  · simp only [List.length_cons]
    omega

/-- ASCII lower-casing of one character (Python `str.lower` on the ASCII
subset that appears in the repository's identifiers). -/
def charLower (c : Char) : Char :=
  if 'A' ≤ c && c ≤ 'Z' then Char.ofNat (c.toNat + 32) else c

/-- ASCII upper-casing of one character. -/
def charUpper (c : Char) : Char :=
  if 'a' ≤ c && c ≤ 'z' then Char.ofNat (c.toNat - 32) else c

/-- Python `str.lower()`. -/
def lowerStr (s : String) : String := String.mk (s.data.map charLower)

/-- Python `str.upper()`. -/
def upperStr (s : String) : String := String.mk (s.data.map charUpper)

/-- Python `str.split(":")` and friends, producing strings again. -/
def pySplit (s : String) (sep : Char) : List String :=
  (splitOnChar sep s.data).map String.mk

/-- Python `str.replace(pat, rep)` at `String` type. -/
def pyReplace (s pat rep : String) : String :=
  String.mk (replaceAll pat.data rep.data s.data)

/-- Python `str.startswith(pre)`. -/
def pyStartsWith (s pre : String) : Bool := prefixMatch pre.data s.data

/-- Whitespace recognised by Python `int(str)` stripping (the subset
relevant to this repository's inputs). -/
def isPySpace (c : Char) : Bool := c == ' ' || c == '\t' || c == '\n' || c == '\r'

/-- Python `int(str)`: strip whitespace, optional sign, then a non-empty
run of decimal digits (digit-group underscores are not modelled; no input
in this repository contains them). `none` models a raised `ValueError`. -/
def parsePyInt (s : String) : Option Int :=
  let t := ((s.data.dropWhile isPySpace).reverse.dropWhile isPySpace).reverse
  let neg := prefixMatch ['-'] t
  let core := if prefixMatch ['-'] t || prefixMatch ['+'] t then t.drop 1 else t
  if core.length > 0 && core.all Char.isDigit then
    let n : Nat := core.foldl (fun acc c => acc * 10 + (c.toNat - 48)) 0
    some (if neg then -(n : Int) else (n : Int))
  else
    none

/-- Case-insensitive substring test: the embedding of Mongo
`{"$regex": pattern, "$options": "i"}` for a metacharacter-free pattern. -/
def regexSearchCI (pattern hay : String) : Bool :=
  substrMatch (pattern.data.map charLower) (hay.data.map charLower)

/-! ### `utils/qr_codes.py` and `utils/validation.py` -/

/-- Alphabet used by `generate_reservation_code`:
`string.ascii_uppercase + string.digits`. -/
def codeAlphabet : List Char := "ABCDEFGHIJKLMNOPQRSTUVWXYZ0123456789".data

theorem codeAlphabet_length : codeAlphabet.length = 36 := by decide

/-- Embedding of `generate_reservation_code`: `random.choices` is modelled
by an arbitrary choice function `pick` giving the index drawn into the
36-character alphabet for each of the 8 positions. -/
def generate_reservation_code (pick : Fin 8 → Fin 36) : String :=
  String.mk ((List.finRange 8).map fun i =>
    codeAlphabet.get (Fin.cast codeAlphabet_length.symm (pick i)))

/-- One character of the class `[A-Z0-9]`. -/
def isUpperAlnum (c : Char) : Bool :=
  ('A' ≤ c && c ≤ 'Z') || ('0' ≤ c && c ≤ '9')

/-- Embedding of `validate_reservation_code`: `re.match(r'^[A-Z0-9]{8}$', code)`
on a newline-free code is exactly "length 8 and every character in
`[A-Z0-9]`" (Python's `$` would additionally admit one trailing newline,
which no generated code contains). -/
def validate_reservation_code (code : String) : Bool :=
  code.data.length == 8 && code.data.all isUpperAlnum

/-- Structured result of `decode_qr_data`. -/
inductive QRDecoded where
  | reservationQR (reservation_id reservation_code : String)
  | eventQR (event_id event_title : String)
  | checkinQR (reservation_id event_id user_id : String)
  deriving Repr, DecidableEq

/-- Embedding of `decode_qr_data`: `CCB-`-prefixed colon-separated payloads. -/
def decode_qr_data (qr : String) : Option QRDecoded :=
  if !pyStartsWith qr "CCB-" then none
  else
    let parts := pySplit qr ':'
    if parts.length < 2 then none
    else
      let qrType := pyReplace (parts.headD "") "CCB-" ""
      if qrType == "RESERVATION" && parts.length ≥ 3 then
        some (.reservationQR (parts.getD 1 "") (parts.getD 2 ""))
      else if qrType == "EVENT" && parts.length ≥ 3 then
        some (.eventQR (parts.getD 1 "") (parts.getD 2 ""))
      else if qrType == "CHECKIN" && parts.length ≥ 4 then
        some (.checkinQR (parts.getD 1 "") (parts.getD 2 "") (parts.getD 3 ""))
      else none

/-- Every character of the code alphabet matches `[A-Z0-9]`. -/
theorem codeAlphabet_upperAlnum : ∀ c ∈ codeAlphabet, isUpperAlnum c = true := by
  decide

/-- C9: every string produced by `generate_reservation_code` has exactly 8
characters, each an uppercase letter `A`–`Z` or digit `0`–`9`, and therefore
satisfies `validate_reservation_code`: the format check of the
`reservation_code` check-in path never rejects a code the system itself
issued. -/
theorem generated_code_valid (pick : Fin 8 → Fin 36) :
    (generate_reservation_code pick).data.length = 8 ∧
    (∀ c ∈ (generate_reservation_code pick).data, isUpperAlnum c = true) ∧
    validate_reservation_code (generate_reservation_code pick) = true := by
  have hmem : ∀ c ∈ (generate_reservation_code pick).data, isUpperAlnum c = true := by
    intro c hc
    simp only [generate_reservation_code, List.mem_map] at hc
    obtain ⟨i, _, hi⟩ := hc
    exact hi ▸ codeAlphabet_upperAlnum _ (codeAlphabet.get_mem _ _)
  have hlen : (generate_reservation_code pick).data.length = 8 := by
    simp [generate_reservation_code]
  refine ⟨hlen, hmem, ?_⟩
  simp only [validate_reservation_code, Bool.and_eq_true, beq_iff_eq, List.all_eq_true]
  exact ⟨hlen, hmem⟩

/-! ### Data model: the document database

Documents are embedded as records of the fields the verified handlers read
or write; collections are lists; `find_one` is `List.find?` (Mongo returns
documents in insertion order for these unindexed queries); `update_one` is
`updateFirst`; `insert_one` appends. -/

/-- An `events` document (fields read by the verified handlers). -/
structure Event where
  id : String
  title : String
  category : String
  date : Nat
  time : String
  location : String
  center : String
  published : Bool
  capacity : Int
  deriving Repr, DecidableEq

/-- A `users` document. -/
structure User where
  id : String
  name : String
  email : String
  center : Option String
  is_admin : Bool
  deleted : Bool
  deriving Repr, DecidableEq

/-- A `reservations` document. `checked_in_at`, `checked_in_by` and
`cancelled_at` model the fields `$set` by check-in and cancellation. -/
structure Reservation where
  id : String
  event_id : String
  user_id : String
  status : String
  qr_code : String
  checkin_code : String
  created_at : String
  notes : Option String
  checked_in_at : Option String
  checked_in_by : Option String
  cancelled_at : Option String
  deriving Repr, DecidableEq

/-- A `checkins` document, as inserted by `check_in_user`. -/
structure CheckinRecord where
  reservation_id : String
  event_id : String
  user_id : String
  checked_in_by : String
  method : String
  timestamp : String
  deriving Repr, DecidableEq

/-- The document database state touched by the verified handlers. -/
structure DB where
  events : List Event
  users : List User
  reservations : List Reservation
  checkins : List CheckinRecord
  deriving Repr, DecidableEq

/-- Mongo `update_one`: apply `f` to the first element matching `p`. -/
def updateFirst (p : α → Bool) (f : α → α) : List α → List α
  | [] => []
  | x :: xs => if p x then f x :: xs else x :: updateFirst p f xs

/-- Python truthiness of an optional-string request field
(`None` and `""` are falsy). -/
def optTruthy : Option String → Bool
  | none => false
  | some v => v != ""

/-! ### `services/event_service.py` -/

/-- Count of non-cancelled reservations of an event, as in
`get_event_by_id`. -/
def reservationCount (db : DB) (eventId : String) : Nat :=
  (db.reservations.filter fun r =>
    r.event_id == eventId && r.status != "cancelled").length

/-- Embedding of `EventService.get_event_by_id`: the stored document plus
the `available_spots` value it computes,
`max(0, capacity - count(non-cancelled reservations))`. -/
def get_event_by_id (db : DB) (eventId : String) : Option (Event × Int) :=
  (db.events.find? fun e => e.id == eventId).map fun e =>
    (e, max 0 (e.capacity - (reservationCount db eventId : Int)))

/-! ### `api/reservations.py`: `create_reservation` and `cancel_reservation` -/

/-- Outcome of the validation phase of `create_reservation`: an
`HTTPException(status_code, detail)` or the reservation document to insert. -/
inductive CreationCheck where
  | failure (statusCode : Nat) (detail : String)
  | approved (doc : Reservation)
  deriving Repr, DecidableEq

/-- The reservation document `create_reservation` builds before inserting. -/
def newReservationDoc (eventId userId rid code qr now : String)
    (notes : Option String) : Reservation :=
  { id := rid, event_id := eventId, user_id := userId, status := "confirmed",
    qr_code := qr, checkin_code := code, created_at := now, notes := notes,
    checked_in_at := none, checked_in_by := none, cancelled_at := none }

/-- The read-and-validate phase of `create_reservation`: event lookup with
computed `available_spots`, published check, past-date check, duplicate
check, capacity check. `today` is `datetime.utcnow().date()`; `rid`, `code`
and `qr` are the freshly generated id, check-in code and QR payload. -/
def create_reservation_check (db : DB) (current_user : User) (eventId : String)
    (today : Nat) (rid code qr now : String) (notes : Option String) : CreationCheck :=
  match get_event_by_id db eventId with
  | none => .failure 404 "Event not found"
  | some (event, available_spots) =>
    if !event.published then .failure 400 "Event is not published"
    else if event.date < today then .failure 400 "Cannot reserve for past events"
    else
      match db.reservations.find? (fun r =>
          r.event_id == eventId && r.user_id == current_user.id &&
          r.status != "cancelled") with
      | some _ => .failure 400 "You already have a reservation for this event"
      | none =>
        if available_spots ≤ 0 then .failure 400 "Event is fully booked"
        else .approved (newReservationDoc eventId current_user.id rid code qr now notes)

/-- The write phase of `create_reservation`: `insert_one` on approval,
no write otherwise. -/
def apply_insert (db : DB) (c : CreationCheck) : DB :=
  match c with
  | .approved doc => { db with reservations := db.reservations ++ [doc] }
  | .failure _ _ => db

/-- `create_reservation` executed sequentially: validation phase directly
followed by its write phase. -/
def create_reservation (db : DB) (current_user : User) (eventId : String)
    (today : Nat) (rid code qr now : String) (notes : Option String) :
    CreationCheck × DB :=
  let c := create_reservation_check db current_user eventId today rid code qr now notes
  (c, apply_insert db c)

/-- Outcome of `cancel_reservation`. -/
inductive CancelResult where
  | failure (statusCode : Nat) (detail : String)
  | ok
  deriving Repr, DecidableEq

/-- The `$set` of `cancel_reservation`. -/
def setCancelled (now : String) (r : Reservation) : Reservation :=
  { r with status := "cancelled", cancelled_at := some now }

/-- The write phase of `cancel_reservation`: `update_one` setting the status
to `cancelled`, reporting failure when `modified_count` is 0 (in which case
the no-op update left the store unchanged). -/
def cancelWrite (db : DB) (reservationId : String) (now : String) :
    CancelResult × DB :=
  let updated := updateFirst (fun x => x.id == reservationId) (setCancelled now)
    db.reservations
  (if updated ≠ db.reservations then .ok
   else .failure 500 "Failed to cancel reservation",
   { db with reservations := updated })

/-- Embedding of `cancel_reservation`: lookup, ownership/admin check,
already-cancelled check, past-event check (skipped when the event is
missing), then `update_one` setting the status to `cancelled`. -/
def cancel_reservation (db : DB) (current_user : User) (reservationId : String)
    (today : Nat) (now : String) : CancelResult × DB :=
  match db.reservations.find? (fun r => r.id == reservationId) with
  | none => (.failure 404 "Reservation not found", db)
  | some r =>
    if r.user_id != current_user.id && !current_user.is_admin then
      (.failure 403 "Not authorized to cancel this reservation", db)
    else if r.status == "cancelled" then
      (.failure 400 "Reservation is already cancelled", db)
    else
      match get_event_by_id db r.event_id with
      | some (event, _) =>
        if event.date < today then
          (.failure 400 "Cannot cancel reservation for past events", db)
        else cancelWrite db reservationId now
      | none => cancelWrite db reservationId now

/-! ### `api/checkin.py`: `check_in_user` -/

/-- A `CheckInRequest` body (`method`, `value`, optional `event_id`). -/
structure CheckInRequest where
  method : String
  value : String
  event_id : Option String
  deriving Repr, DecidableEq

/-- The `success`/`message` part of a `CheckInResponse`. -/
structure CheckInResponse where
  success : Bool
  message : String
  deriving Repr, DecidableEq

/-- A failure `CheckInResponse`. -/
def failResp (msg : String) : CheckInResponse := { success := false, message := msg }

/-- The optional `event_id` filter added to the reservation query of the
`email` and `name` check-in paths when the request's `event_id` is truthy. -/
def eventFilterB (eventId : Option String) (r : Reservation) : Bool :=
  if optTruthy eventId then r.event_id == eventId.getD "" else true

/-- The reservation query of the `email` and `name` check-in paths:
`{"user_id": ..., "status": "confirmed"}` plus the optional event filter. -/
def activeReservationsOf (db : DB) (userId : String) (eventId : Option String) :
    List Reservation :=
  db.reservations.filter fun r =>
    r.user_id == userId && r.status == "confirmed" && eventFilterB eventId r

/-- The method-dispatch part of `check_in_user`: every `return` of a failure
response before the status checks becomes `.error`, and the reservation the
handler goes on to check in becomes `.ok` (the common
"Reservation not found" check on a missing lookup result is folded in). -/
def locate_reservation (db : DB) (req : CheckInRequest) :
    Except CheckInResponse Reservation :=
  if req.method == "qr_code" then
    match decode_qr_data req.value with
    | some (.reservationQR rid _) =>
      match db.reservations.find? (fun r => r.id == rid) with
      | some r => .ok r
      | none => .error (failResp "Reservation not found")
    | _ => .error (failResp "Invalid QR code format")
  else if req.method == "reservation_code" then
    if !validate_reservation_code req.value then
      .error (failResp "Invalid reservation code format")
    else
      match db.reservations.find? (fun r => r.checkin_code == upperStr req.value) with
      | some r => .ok r
      | none => .error (failResp "Reservation not found")
  else if req.method == "email" then
    match db.users.find? (fun u => u.email == lowerStr req.value && !u.deleted) with
    | none => .error (failResp "User not found with this email")
    | some user =>
      match activeReservationsOf db user.id req.event_id with
      | [] => .error (failResp "No active reservations found for this email")
      | r :: rest =>
        if rest.length > 0 && !optTruthy req.event_id then
          .error (failResp "Multiple reservations found. Please specify event.")
        else .ok r
  else if req.method == "name" then
    match db.users.filter (fun u => regexSearchCI req.value u.name && !u.deleted) with
    | [] => .error (failResp "User not found with this name")
    | [user] =>
      match activeReservationsOf db user.id req.event_id with
      | [] => .error (failResp "No active reservations found for this user")
      | r :: rest =>
        if rest.length > 0 && !optTruthy req.event_id then
          .error (failResp "Multiple reservations found. Please specify event.")
        else .ok r
    | _ => .error (failResp ("Multiple users found with name \x27" ++ req.value ++ "\x27"))
  else
    .error (failResp "Invalid check-in method")

/-- The `$set` of `check_in_user`. -/
def setCheckedIn (now adminId : String) (r : Reservation) : Reservation :=
  { r with status := "checked_in", checked_in_at := some now,
           checked_in_by := some adminId }

/-- The write phase of `check_in_user` on located reservation `r`:
`update_one` the status to `checked_in`; when the update modified a
document, insert a `checkins` record and report success, otherwise report
failure (the no-op update left the store unchanged). -/
def checkinWrite (db : DB) (r : Reservation) (admin_user : User)
    (req : CheckInRequest) (now : String) : CheckInResponse × DB :=
  let updated := updateFirst (fun x => x.id == r.id)
    (setCheckedIn now admin_user.id) db.reservations
  if updated ≠ db.reservations then
    ({ success := true, message := "Check-in successful" },
     { db with reservations := updated,
               checkins := db.checkins ++
                 [{ reservation_id := r.id, event_id := r.event_id,
                    user_id := r.user_id, checked_in_by := admin_user.id,
                    method := req.method, timestamp := now }] })
  else (failResp "Failed to update check-in status", db)

/-- Embedding of `check_in_user`: locate the reservation, reject
`checked_in`/`cancelled` statuses, require the detail aggregation's
`$unwind`s to find the event and the user, then `update_one` the status to
`checked_in` and insert a `checkins` record. When the update modifies
nothing the handler reports failure; the store is then unchanged, because
the no-op update wrote nothing. -/
def check_in_user (db : DB) (admin_user : User) (req : CheckInRequest)
    (now : String) : CheckInResponse × DB :=
  match locate_reservation db req with
  | .error resp => (resp, db)
  | .ok r =>
    if r.status == "checked_in" then (failResp "User already checked in", db)
    else if r.status == "cancelled" then
      (failResp "Reservation has been cancelled", db)
    else
      match db.events.find? (fun e => e.id == r.event_id),
            db.users.find? (fun u => u.id == r.user_id) with
      | some _, some _ => checkinWrite db r admin_user req now
      | _, _ => (failResp "Reservation details not found", db)

/-! ### Invariant scaffolding for the reservation lifecycle -/

/-- The documented status set of a reservation
(`models/reservations.py`: "confirmed, checked_in, cancelled"). -/
def statusesValid (db : DB) : Bool :=
  db.reservations.all fun r =>
    r.status == "confirmed" || r.status == "checked_in" || r.status == "cancelled"

/-- Reservation ids are pairwise distinct (they are generated by
`uuid.uuid4`). -/
def idsUnique : List Reservation → Bool
  | [] => true
  | r :: rest => (rest.all fun x => x.id != r.id) && idsUnique rest

/-- The status change `check_in_user` is allowed to make to any one stored
reservation: none, or `confirmed → checked_in`. -/
def checkinStatusStep (old new : Reservation) : Prop :=
  old.status = new.status ∨ (old.status = "confirmed" ∧ new.status = "checked_in")

/-- The status change `cancel_reservation` is allowed to make to any one
stored reservation: none, or non-cancelled `→ cancelled`. -/
def cancelStatusStep (old new : Reservation) : Prop :=
  old.status = new.status ∨ (old.status ≠ "cancelled" ∧ new.status = "cancelled")

theorem forall₂_updateFirst {α} {P : α → α → Prop} (p : α → Bool) (f : α → α)
    (hrefl : ∀ x, P x x) :
    ∀ l : List α, (∀ x ∈ l, p x = true → P x (f x)) →
      List.Forall₂ P l (updateFirst p f l)
  | [], _ => List.Forall₂.nil
  | x :: xs, h => by
    by_cases hp : p x = true
    · simp only [updateFirst, hp, if_true]
      exact List.Forall₂.cons (h x (List.mem_cons_self x xs) hp)
        (List.forall₂_same.mpr fun y _ => hrefl y)
    · simp only [updateFirst, hp, if_false, Bool.false_eq_true]
      exact List.Forall₂.cons (hrefl x)
        (forall₂_updateFirst p f hrefl xs fun y hy hpy =>
          h y (List.mem_cons_of_mem x hy) hpy)

theorem idsUnique_eq : ∀ {rs : List Reservation}, idsUnique rs = true →
    ∀ {x y : Reservation}, x ∈ rs → y ∈ rs → x.id = y.id → x = y := by
  intro rs
  induction rs with
  | nil => intro _ x y hx; cases hx
  | cons a t ih =>
    intro h x y hx hy hid
    simp only [idsUnique, Bool.and_eq_true, List.all_eq_true, bne_iff_ne] at h
    rcases List.mem_cons.mp hx with rfl | hx'
    · rcases List.mem_cons.mp hy with rfl | hy'
      · rfl
      · exact absurd hid.symm (h.1 y hy')
    · rcases List.mem_cons.mp hy with rfl | hy'
      · exact absurd hid (h.1 x hx')
      · exact ih h.2 hx' hy' hid

/-- The reservation `locate_reservation` settles on was read from the
`reservations` collection. -/
theorem locate_mem {db : DB} {req : CheckInRequest} {r : Reservation}
    (h : locate_reservation db req = .ok r) : r ∈ db.reservations := by
  unfold locate_reservation at h
  by_cases m1 : (req.method == "qr_code") = true
  · rw [if_pos m1] at h
    split at h
    · split at h
      · rename_i v heq
        obtain rfl := Except.ok.inj h
        exact List.mem_of_find?_eq_some heq
      · simp at h
    · simp at h
  · rw [if_neg m1] at h
    by_cases m2 : (req.method == "reservation_code") = true
    · rw [if_pos m2] at h
      by_cases v2 : (!validate_reservation_code req.value) = true
      · rw [if_pos v2] at h; simp at h
      · rw [if_neg v2] at h
        split at h
        · rename_i v heq
          obtain rfl := Except.ok.inj h
          exact List.mem_of_find?_eq_some heq
        · simp at h
    · rw [if_neg m2] at h
      by_cases m3 : (req.method == "email") = true
      · rw [if_pos m3] at h
        split at h
        · simp at h
        · rename_i user heq1
          split at h
          · simp at h
          · rename_i r0 rest heq2
            split at h
            · simp at h
            · obtain rfl := Except.ok.inj h
              have hr : r0 ∈ activeReservationsOf db user.id req.event_id := by
                rw [heq2]
                exact List.mem_cons_self _ _
              exact (List.mem_filter.mp hr).1
      · rw [if_neg m3] at h
        by_cases m4 : (req.method == "name") = true
        · rw [if_pos m4] at h
          split at h
          · simp at h
          · rename_i user heq1
            split at h
            · simp at h
            · rename_i r0 rest heq2
              split at h
              · simp at h
              · obtain rfl := Except.ok.inj h
                have hr : r0 ∈ activeReservationsOf db user.id req.event_id := by
                  rw [heq2]
                  exact List.mem_cons_self _ _
                exact (List.mem_filter.mp hr).1
          · simp at h
        · rw [if_neg m4] at h
          simp at h

/-- A failed `checkinWrite` leaves the store unchanged. -/
theorem checkinWrite_fail {db : DB} {r : Reservation} {a : User}
    {req : CheckInRequest} {now : String}
    (h : (checkinWrite db r a req now).1.success = false) :
    (checkinWrite db r a req now).2 = db := by
  by_cases hc : updateFirst (fun x => x.id == r.id) (setCheckedIn now a.id)
      db.reservations = db.reservations
  · simp [checkinWrite, hc]
  · simp [checkinWrite, hc] at h

/-- A failing `check_in_user` run returns the store exactly as it found
it. -/
theorem check_in_fail_unchanged (db : DB) (a : User) (req : CheckInRequest)
    (now : String)
    (h : (check_in_user db a req now).1.success = false) :
    (check_in_user db a req now).2 = db := by
  unfold check_in_user at h ⊢
  cases hloc : locate_reservation db req with
  | error resp => simp
  | ok r =>
    simp only [hloc] at h ⊢
    split_ifs at h ⊢
    · rfl
    · rfl
    · split at h
      · exact checkinWrite_fail h
      · rfl

/-- `cancelWrite` only rewrites the first reservation matching the id. -/
theorem cancelWrite_reservations (db : DB) (rid now : String) :
    (cancelWrite db rid now).2.reservations =
      updateFirst (fun x => x.id == rid) (setCancelled now) db.reservations := by
  simp [cancelWrite]

/-- Shape of the store after `cancel_reservation`: unchanged, or with the
cancellation `$set` applied to the first id match. -/
theorem cancel_shape (db : DB) (cu : User) (rid : String) (today : Nat) (now : String) :
    (cancel_reservation db cu rid today now).2.reservations = db.reservations ∨
    (cancel_reservation db cu rid today now).2.reservations =
      updateFirst (fun x => x.id == rid) (setCancelled now) db.reservations := by
  unfold cancel_reservation
  split
  · left; rfl
  · split_ifs
    · left; rfl
    · left; rfl
    · split
      · split_ifs
        · left; rfl
        · right; exact cancelWrite_reservations db rid now
      · right; exact cancelWrite_reservations db rid now

/-- Any `cancel_reservation` run only makes `cancelStatusStep` transitions. -/
theorem cancel_reservation_forall₂ (db : DB) (cu : User) (rid : String)
    (today : Nat) (now : String) :
    List.Forall₂ cancelStatusStep db.reservations
      (cancel_reservation db cu rid today now).2.reservations := by
  rcases cancel_shape db cu rid today now with h | h
  · rw [h]
    exact List.forall₂_same.mpr fun x _ => Or.inl rfl
  · rw [h]
    have hrefl : ∀ x : Reservation, cancelStatusStep x x := fun _ => Or.inl rfl
    refine forall₂_updateFirst _ _ hrefl _ ?_
    intro x _ _
    by_cases hx : x.status = "cancelled"
    · exact Or.inl (by simp [setCancelled, hx])
    · exact Or.inr ⟨hx, rfl⟩

/-- Shape of the store after `check_in_user`: unchanged, or with the
check-in `$set` applied to the first id match of a located reservation
whose status was neither `checked_in` nor `cancelled`. -/
theorem checkin_shape (db : DB) (a : User) (req : CheckInRequest) (now : String) :
    (check_in_user db a req now).2.reservations = db.reservations ∨
    ∃ r, locate_reservation db req = .ok r ∧
      (r.status == "checked_in") = false ∧ (r.status == "cancelled") = false ∧
      (check_in_user db a req now).2.reservations =
        updateFirst (fun x => x.id == r.id) (setCheckedIn now a.id) db.reservations := by
  unfold check_in_user
  cases hloc : locate_reservation db req with
  | error resp => left; simp
  | ok r =>
    simp only [hloc]
    split_ifs with h1 h2
    · left; rfl
    · left; rfl
    · split
      · by_cases hc : updateFirst (fun x => x.id == r.id) (setCheckedIn now a.id)
            db.reservations = db.reservations
        · left; simp [checkinWrite, hc]
        · right
          exact ⟨r, rfl, by simpa using h1, by simpa using h2,
            by simp [checkinWrite, hc]⟩
      · left; rfl

/-- Under distinct reservation ids and lifecycle-valid statuses, any
`check_in_user` run only makes `checkinStatusStep` transitions. -/
theorem checkin_forall₂ (db : DB) (a : User) (req : CheckInRequest) (now : String)
    (hval : statusesValid db = true) (hids : idsUnique db.reservations = true) :
    List.Forall₂ checkinStatusStep db.reservations
      (check_in_user db a req now).2.reservations := by
  rcases checkin_shape db a req now with h | ⟨r, hloc, h1, h2, h⟩
  · rw [h]
    exact List.forall₂_same.mpr fun x _ => Or.inl rfl
  · rw [h]
    have hr : r ∈ db.reservations := locate_mem hloc
    have hconf : r.status = "confirmed" := by
      simp only [statusesValid, List.all_eq_true] at hval
      have h3 := hval r hr
      simp only [Bool.or_eq_true, beq_iff_eq] at h3
      have hne1 : r.status ≠ "checked_in" := by
        intro hcontra
        rw [hcontra] at h1
        simp at h1
      have hne2 : r.status ≠ "cancelled" := by
        intro hcontra
        rw [hcontra] at h2
        simp at h2
      rcases h3 with (h3 | h3) | h3
      · exact h3
      · exact absurd h3 hne1
      · exact absurd h3 hne2
    have hrefl : ∀ x : Reservation, checkinStatusStep x x := fun _ => Or.inl rfl
    refine forall₂_updateFirst _ _ hrefl _ ?_
    intro x hx hpx
    have hxr : x = r := idsUnique_eq hids hx hr (by simpa using hpx)
    subst hxr
    exact Or.inr ⟨hconf, rfl⟩

/-- A located reservation already `checked_in` or `cancelled` makes
`check_in_user` fail with the store untouched. -/
theorem checkin_rejects_terminal {db : DB} {a : User} {req : CheckInRequest}
    {now : String} {r : Reservation}
    (hloc : locate_reservation db req = .ok r)
    (hst : r.status = "checked_in" ∨ r.status = "cancelled") :
    (check_in_user db a req now).1.success = false ∧
      (check_in_user db a req now).2 = db := by
  unfold check_in_user
  rcases hst with hst | hst
  · have hb : (r.status == "checked_in") = true := by rw [hst]; rfl
    simp [hloc, hb, failResp]
  · have hb2 : (r.status == "cancelled") = true := by rw [hst]; rfl
    by_cases hb1 : (r.status == "checked_in") = true
    · simp [hloc, hb1, failResp]
    · simp [hloc, hb1, hb2, failResp]

/-- C1 (amended): `cancelled` is terminal and `check_in_user` treats both
`checked_in` and `cancelled` as terminal, but `cancel_reservation` does
not: over stores with distinct reservation ids and lifecycle statuses,
`check_in_user` changes statuses only `confirmed → checked_in`,
`cancel_reservation` changes statuses only non-cancelled `→ cancelled`
(so it may cancel a `checked_in` reservation), and `check_in_user`
returns a failure response leaving the store untouched whenever the
reservation it locates is already `checked_in` or `cancelled`. -/
theorem reservation_lifecycle_terminal (db : DB) (a cu : User)
    (req : CheckInRequest) (rid : String) (today : Nat) (now now2 : String)
    (hval : statusesValid db = true) (hids : idsUnique db.reservations = true) :
    List.Forall₂ checkinStatusStep db.reservations
      (check_in_user db a req now).2.reservations ∧
    List.Forall₂ cancelStatusStep db.reservations
      (cancel_reservation db cu rid today now2).2.reservations ∧
    (∀ r, locate_reservation db req = Except.ok r →
      r.status = "checked_in" ∨ r.status = "cancelled" →
      (check_in_user db a req now).1.success = false ∧
        (check_in_user db a req now).2 = db) :=
  ⟨checkin_forall₂ db a req now hval hids,
   cancel_reservation_forall₂ db cu rid today now2,
   fun _ hloc hst => checkin_rejects_terminal hloc hst⟩

/-- A published upcoming event. -/
def c1Event : Event :=
  { id := "e1", title := "Concert", category := "Conciertos", date := 10,
    time := "19:00", location := "Hall", center := "santo-domingo",
    published := true, capacity := 10 }

/-- A reservation already checked in. -/
def c1Res : Reservation :=
  { id := "r1", event_id := "e1", user_id := "u1", status := "checked_in",
    qr_code := "q", checkin_code := "ABCD1234", created_at := "t0",
    notes := none, checked_in_at := some "t1", checked_in_by := some "adm",
    cancelled_at := none }

/-- The owner of `c1Res`. -/
def c1User : User :=
  { id := "u1", name := "Ana", email := "ana@mail.com",
    center := some "santo-domingo", is_admin := false, deleted := false }

/-- A store holding the checked-in reservation `c1Res`. -/
def c1DB : DB :=
  { events := [c1Event], users := [c1User], reservations := [c1Res],
    checkins := [] }

/-- C1 counterexample: `checked_in` is not terminal. `cancel_reservation`
invoked by the owner on a reservation whose status is `checked_in` (for an
upcoming event) succeeds and rewrites the status to `cancelled`, so an
operation does change the status of a reservation after it reached
`checked_in`, contradicting the claim. -/
theorem checkedin_not_terminal_counterexample :
    c1Res.status = "checked_in" ∧
    (cancel_reservation c1DB c1User "r1" 5 "t2").1 = CancelResult.ok ∧
    ((cancel_reservation c1DB c1User "r1" 5 "t2").2.reservations.map
      Reservation.status) = ["cancelled"] := by
  refine ⟨rfl, ?_, ?_⟩ <;> decide

/-- A check-in request locating `c1Res` through its check-in code. -/
def c1Req : CheckInRequest :=
  { method := "reservation_code", value := "ABCD1234", event_id := none }

/-- C1 witness: the amended lifecycle theorem applied to the concrete store
`c1DB`. -/
theorem reservation_lifecycle_terminal_witness :
    List.Forall₂ checkinStatusStep c1DB.reservations
      (check_in_user c1DB c1User c1Req "t3").2.reservations ∧
    List.Forall₂ cancelStatusStep c1DB.reservations
      (cancel_reservation c1DB c1User "r1" 5 "t2").2.reservations ∧
    (∀ r, locate_reservation c1DB c1Req = Except.ok r →
      r.status = "checked_in" ∨ r.status = "cancelled" →
      (check_in_user c1DB c1User c1Req "t3").1.success = false ∧
        (check_in_user c1DB c1User c1Req "t3").2 = c1DB) :=
  reservation_lifecycle_terminal c1DB c1User c1User c1Req "r1" 5 "t3" "t2"
    (by decide) (by decide)

/-- C10: whenever `check_in_user` returns a failure response (invalid
method, malformed QR or code, user not found, no or ambiguous reservations,
reservation not found, already checked in, cancelled, missing detail
lookups, or a no-op update), the store it returns is exactly the store it
was given: no reservation was modified and nothing was inserted into the
`checkins` collection. -/
theorem checkin_atomic_on_failure (db : DB) (a : User) (req : CheckInRequest)
    (now : String)
    (h : (check_in_user db a req now).1.success = false) :
    (check_in_user db a req now).2 = db :=
  check_in_fail_unchanged db a req now h

/-- C10 witness: a concrete failing check-in (invalid method) leaves a
concrete store unchanged. -/
theorem checkin_atomic_on_failure_witness :
    (check_in_user c1DB c1User
      { method := "sms", value := "x", event_id := none } "t4").2 = c1DB :=
  checkin_atomic_on_failure c1DB c1User
    { method := "sms", value := "x", event_id := none } "t4" (by decide)

/-! ### C2: application-level uniqueness of (user, event) among
non-cancelled reservations -/

/-- Two reservations clash when both are non-cancelled and share the same
(user, event) pair. -/
def activePairClash (a b : Reservation) : Prop :=
  a.status ≠ "cancelled" ∧ b.status ≠ "cancelled" ∧
    a.user_id = b.user_id ∧ a.event_id = b.event_id

instance : DecidableRel activePairClash := fun a b => by
  unfold activePairClash
  infer_instance

/-- Absence of a clash between two reservations. -/
def NoClash (a b : Reservation) : Prop := ¬ activePairClash a b

instance : DecidableRel NoClash := fun a b => by
  unfold NoClash
  infer_instance

/-- The application-level uniqueness constraint: at most one non-cancelled
reservation per (user, event) pair. -/
def UniqueActive (rs : List Reservation) : Prop := List.Pairwise NoClash rs

instance (rs : List Reservation) : Decidable (UniqueActive rs) := by
  unfold UniqueActive
  infer_instance

theorem mem_updateFirst {α} (p : α → Bool) (f : α → α) :
    ∀ {l : List α} {y : α}, y ∈ updateFirst p f l →
      y ∈ l ∨ ∃ z ∈ l, p z = true ∧ y = f z := by
  intro l
  induction l with
  | nil => intro y hy; cases hy
  | cons x xs ih =>
    intro y hy
    by_cases hp : p x = true
    · simp only [updateFirst, hp, if_true] at hy
      rcases List.mem_cons.mp hy with rfl | hy'
      · exact Or.inr ⟨x, List.mem_cons_self x xs, hp, rfl⟩
      · exact Or.inl (List.mem_cons_of_mem _ hy')
    · simp only [updateFirst, hp, if_false, Bool.false_eq_true] at hy
      rcases List.mem_cons.mp hy with rfl | hy'
      · exact Or.inl (List.mem_cons_self y xs)
      · rcases ih hy' with hmem | ⟨z, hz, hpz, rfl⟩
        · exact Or.inl (List.mem_cons_of_mem _ hmem)
        · exact Or.inr ⟨z, List.mem_cons_of_mem _ hz, hpz, rfl⟩

theorem pairwise_updateFirst {α} {R : α → α → Prop} (p : α → Bool) (f : α → α) :
    ∀ {l : List α}, l.Pairwise R →
      (∀ x ∈ l, p x = true →
        ∀ y, (R x y → R (f x) y) ∧ (R y x → R y (f x))) →
      (updateFirst p f l).Pairwise R := by
  intro l
  induction l with
  | nil => intro _ _; exact List.Pairwise.nil
  | cons x xs ih =>
    intro hpw hf
    rcases List.pairwise_cons.mp hpw with ⟨hx, hxs⟩
    by_cases hp : p x = true
    · simp only [updateFirst, hp, if_true]
      refine List.pairwise_cons.mpr ⟨?_, hxs⟩
      intro y hy
      exact (hf x (List.mem_cons_self x xs) hp y).1 (hx y hy)
    · simp only [updateFirst, hp, if_false, Bool.false_eq_true]
      refine List.pairwise_cons.mpr
        ⟨?_, ih hxs fun z hz hpz => hf z (List.mem_cons_of_mem _ hz) hpz⟩
      intro y hy
      rcases mem_updateFirst p f hy with hmem | ⟨z, hz, hpz, rfl⟩
      · exact hx y hmem
      · exact (hf z (List.mem_cons_of_mem _ hz) hpz x).2 (hx z hz)

/-- An approved `create_reservation_check` produced exactly the new
document, and its duplicate query found nothing. -/
theorem create_check_approved {db : DB} {u : User} {eid : String} {today : Nat}
    {rid code qr now : String} {notes : Option String} {doc : Reservation}
    (h : create_reservation_check db u eid today rid code qr now notes =
      CreationCheck.approved doc) :
    doc = newReservationDoc eid u.id rid code qr now notes ∧
    db.reservations.find? (fun r =>
      r.event_id == eid && r.user_id == u.id && r.status != "cancelled") = none := by
  unfold create_reservation_check at h
  split at h
  · simp at h
  · rename_i e a heq0
    by_cases h1 : (!e.published) = true
    · rw [if_pos h1] at h; simp at h
    · rw [if_neg h1] at h
      by_cases h2 : e.date < today
      · rw [if_pos h2] at h; simp at h
      · rw [if_neg h2] at h
        split at h
        · simp at h
        · rename_i heq
          by_cases h3 : a ≤ 0
          · rw [if_pos h3] at h; simp at h
          · rw [if_neg h3] at h
            exact ⟨(CreationCheck.approved.inj h).symm, heq⟩

/-- `create_reservation` preserves the uniqueness constraint. -/
theorem create_unique_preserved (db : DB) (u : User) (eid : String)
    (today : Nat) (rid code qr now : String) (notes : Option String)
    (h : UniqueActive db.reservations) :
    UniqueActive
      (create_reservation db u eid today rid code qr now notes).2.reservations := by
  unfold create_reservation apply_insert
  cases hc : create_reservation_check db u eid today rid code qr now notes with
  | failure c d => exact h
  | approved doc =>
    obtain ⟨rfl, hfind⟩ := create_check_approved hc
    refine List.pairwise_append.mpr ⟨h, by simp [NoClash], ?_⟩
    intro x hx y hy
    simp only [List.mem_singleton] at hy
    subst hy
    intro hclash
    obtain ⟨hxa, _, hu, he⟩ := hclash
    have hnone := List.find?_eq_none.mp hfind x hx
    apply hnone
    have hu' : x.user_id = u.id := hu
    have he' : x.event_id = eid := he
    simp [hu', he', hxa]

/-- `cancel_reservation` preserves the uniqueness constraint. -/
theorem cancel_unique_preserved (db : DB) (cu : User) (rid : String)
    (today : Nat) (now : String) (h : UniqueActive db.reservations) :
    UniqueActive (cancel_reservation db cu rid today now).2.reservations := by
  rcases cancel_shape db cu rid today now with hs | hs
  · rw [hs]; exact h
  · rw [hs]
    refine pairwise_updateFirst _ _ h ?_
    intro x _ _ y
    constructor
    · intro _ hclash
      obtain ⟨hfx, _, _, _⟩ := hclash
      exact hfx (by simp [setCancelled])
    · intro _ hclash
      obtain ⟨_, hfx, _, _⟩ := hclash
      exact hfx (by simp [setCancelled])

/-- `check_in_user` preserves the uniqueness constraint (over stores with
distinct reservation ids). -/
theorem checkin_unique_preserved (db : DB) (a : User) (req : CheckInRequest)
    (now : String) (hids : idsUnique db.reservations = true)
    (h : UniqueActive db.reservations) :
    UniqueActive (check_in_user db a req now).2.reservations := by
  rcases checkin_shape db a req now with hs | ⟨r, hloc, h1, h2, hs⟩
  · rw [hs]; exact h
  · rw [hs]
    have hr : r ∈ db.reservations := locate_mem hloc
    refine pairwise_updateFirst _ _ h ?_
    intro x hx hpx y
    have hxr : x = r := idsUnique_eq hids hx hr (by simpa using hpx)
    subst hxr
    have hxa : x.status ≠ "cancelled" := by
      intro hcontra
      rw [hcontra] at h2
      simp at h2
    constructor
    · intro hnc hclash
      obtain ⟨_, hya, hu, he⟩ := hclash
      exact hnc ⟨hxa, hya, by simpa [setCheckedIn] using hu,
        by simpa [setCheckedIn] using he⟩
    · intro hnc hclash
      obtain ⟨hya, _, hu, he⟩ := hclash
      exact hnc ⟨hya, hxa, by simpa [setCheckedIn] using hu,
        by simpa [setCheckedIn] using he⟩

/-- The duplicate rejection of `create_reservation`, reached once the
event exists, is published and is not past. -/
theorem create_duplicate_rejected (db : DB) (u : User) (eid : String)
    (today : Nat) (rid code qr now : String) (notes : Option String)
    (e : Event) (av : Int) (hev : get_event_by_id db eid = some (e, av))
    (hpub : e.published = true) (hdate : today ≤ e.date)
    (hdup : ∃ x ∈ db.reservations,
      x.event_id = eid ∧ x.user_id = u.id ∧ x.status ≠ "cancelled") :
    create_reservation db u eid today rid code qr now notes =
      (CreationCheck.failure 400 "You already have a reservation for this event",
       db) := by
  have hnd : ¬ (e.date < today) := not_lt.mpr hdate
  obtain ⟨x, hx, hxe, hxu, hxs⟩ := hdup
  have hpred : (fun r : Reservation =>
      r.event_id == eid && r.user_id == u.id && r.status != "cancelled") x = true := by
    simp [hxe, hxu, hxs]
  cases hf : db.reservations.find? (fun r =>
      r.event_id == eid && r.user_id == u.id && r.status != "cancelled") with
  | none => exact absurd hpred (List.find?_eq_none.mp hf x hx)
  | some w =>
    unfold create_reservation create_reservation_check apply_insert
    rw [hev, hf]
    simp [hpub, hnd]

/-- The successful insertion of `create_reservation`, reached once the
event exists, is published, is not past, has free capacity and the user
has no live reservation for it. -/
theorem create_inserts_one (db : DB) (u : User) (eid : String)
    (today : Nat) (rid code qr now : String) (notes : Option String)
    (e : Event) (av : Int) (hev : get_event_by_id db eid = some (e, av))
    (hpub : e.published = true) (hdate : today ≤ e.date)
    (hnodup : ∀ x ∈ db.reservations,
      ¬(x.event_id = eid ∧ x.user_id = u.id ∧ x.status ≠ "cancelled"))
    (hcap : 0 < av) :
    create_reservation db u eid today rid code qr now notes =
      (CreationCheck.approved (newReservationDoc eid u.id rid code qr now notes),
       { db with reservations :=
          db.reservations ++ [newReservationDoc eid u.id rid code qr now notes] }) := by
  have hnd : ¬ (e.date < today) := not_lt.mpr hdate
  have hncap : ¬ (av ≤ 0) := not_le.mpr hcap
  have hf : db.reservations.find? (fun r =>
      r.event_id == eid && r.user_id == u.id && r.status != "cancelled") = none := by
    refine List.find?_eq_none.mpr ?_
    intro x hx
    have hthis := hnodup x hx
    intro hcontra
    simp only [Bool.and_eq_true, beq_iff_eq, bne_iff_ne] at hcontra
    exact hthis ⟨hcontra.1.1, hcontra.1.2, hcontra.2⟩
  unfold create_reservation create_reservation_check apply_insert
  rw [hev, hf]
  simp [hpub, hnd, hncap]

/-- C2 (amended): the duplicate check of `create_reservation` rejects with
the 400 error exactly as claimed once the earlier guards pass (event
exists, is published, is not past), the insertion of a single `confirmed`
reservation additionally requires free capacity, and — under sequential
execution — `create_reservation`, `cancel_reservation` and `check_in_user`
all preserve uniqueness of (user_id, event_id) among non-cancelled
reservations (check-in over stores with distinct reservation ids). -/
theorem reservation_uniqueness (db : DB) (u cu a : User) (eid : String)
    (today : Nat) (rid code qr now : String) (notes : Option String)
    (resId : String) (today2 : Nat) (now2 : String)
    (req : CheckInRequest) (now3 : String) :
    (∀ e av, get_event_by_id db eid = some (e, av) → e.published = true →
      today ≤ e.date →
      (∃ x ∈ db.reservations,
        x.event_id = eid ∧ x.user_id = u.id ∧ x.status ≠ "cancelled") →
      create_reservation db u eid today rid code qr now notes =
        (CreationCheck.failure 400
          "You already have a reservation for this event", db)) ∧
    (∀ e av, get_event_by_id db eid = some (e, av) → e.published = true →
      today ≤ e.date →
      (∀ x ∈ db.reservations,
        ¬(x.event_id = eid ∧ x.user_id = u.id ∧ x.status ≠ "cancelled")) →
      0 < av →
      create_reservation db u eid today rid code qr now notes =
        (CreationCheck.approved (newReservationDoc eid u.id rid code qr now notes),
         { db with reservations := db.reservations ++
            [newReservationDoc eid u.id rid code qr now notes] }) ∧
      (newReservationDoc eid u.id rid code qr now notes).status = "confirmed") ∧
    (UniqueActive db.reservations →
      UniqueActive
        (create_reservation db u eid today rid code qr now notes).2.reservations) ∧
    (UniqueActive db.reservations →
      UniqueActive (cancel_reservation db cu resId today2 now2).2.reservations) ∧
    (idsUnique db.reservations = true → UniqueActive db.reservations →
      UniqueActive (check_in_user db a req now3).2.reservations) :=
  ⟨fun e av hev hpub hdate hdup =>
      create_duplicate_rejected db u eid today rid code qr now notes e av
        hev hpub hdate hdup,
   fun e av hev hpub hdate hnodup hcap =>
      ⟨create_inserts_one db u eid today rid code qr now notes e av
          hev hpub hdate hnodup hcap, rfl⟩,
   create_unique_preserved db u eid today rid code qr now notes,
   cancel_unique_preserved db cu resId today2 now2,
   checkin_unique_preserved db a req now3⟩

/-- An upcoming published event with a single spot. -/
def c2Event : Event :=
  { id := "e1", title := "Taller", category := "Talleres", date := 10,
    time := "10:00", location := "Sala", center := "santo-domingo",
    published := true, capacity := 1 }

/-- The reservation of another user filling the only spot of `c2Event`. -/
def c2OtherRes : Reservation :=
  { id := "r8", event_id := "e1", user_id := "u9", status := "confirmed",
    qr_code := "q8", checkin_code := "AAAA1111", created_at := "t0",
    notes := none, checked_in_at := none, checked_in_by := none,
    cancelled_at := none }

/-- A second user with no reservation for `c2Event`. -/
def c2User : User :=
  { id := "u2", name := "Beni", email := "beni@mail.com",
    center := some "santo-domingo", is_admin := false, deleted := false }

/-- A store where `c2Event` is fully booked by someone else. -/
def c2DB : DB :=
  { events := [c2Event], users := [c2User],
    reservations := [c2OtherRes], checkins := [] }

/-- C2 counterexample: the user has no non-cancelled reservation for the
event, yet `create_reservation` does not insert a reservation — it raises
400 "Event is fully booked" and leaves the store unchanged, refuting
"otherwise inserts exactly one new reservation with status confirmed". -/
theorem create_otherwise_inserts_counterexample :
    (∀ x ∈ c2DB.reservations,
      ¬(x.event_id = "e1" ∧ x.user_id = "u2" ∧ x.status ≠ "cancelled")) ∧
    create_reservation c2DB c2User "e1" 5 "r9" "BBBB2222" "qr9" "t1" none =
      (CreationCheck.failure 400 "Event is fully booked", c2DB) := by
  constructor
  · decide
  · decide

/-- C2 witness: uniqueness is preserved by a concrete `create_reservation`
run on a concrete store satisfying the constraint. -/
theorem reservation_uniqueness_witness :
    UniqueActive
      (create_reservation c2DB c2User "e1" 5 "r9" "BBBB2222" "qr9" "t1"
        none).2.reservations :=
  (reservation_uniqueness c2DB c2User c2User c2User "e1" 5 "r9" "BBBB2222"
      "qr9" "t1" none "r8" 5 "t2"
      { method := "sms", value := "x", event_id := none } "t3").2.2.1
    (by decide)

/-! ### C8: the unsynchronized read-then-insert of `create_reservation`

`create_reservation` has no transaction: its capacity check reads
`event["available_spots"]` (a count over the store at read time) and its
insert runs later and unconditionally on approval. Concurrency is embedded
by interleaving the two phases of two requests explicitly: both validation
phases read the same initial store, then both writes are applied. -/

/-- Two concurrent `create_reservation` requests interleaved as
read₁, read₂, write₁, write₂: both validation phases see the initial
store. Returns both request outcomes and the final store. -/
def interleaved_create_pair (db : DB) (u1 u2 : User) (eid : String)
    (today : Nat) (rid1 code1 qr1 rid2 code2 qr2 now : String) :
    CreationCheck × CreationCheck × DB :=
  let d1 := create_reservation_check db u1 eid today rid1 code1 qr1 now none
  let d2 := create_reservation_check db u2 eid today rid2 code2 qr2 now none
  let db1 := apply_insert db d1
  let db2 := apply_insert db1 d2
  (d1, d2, db2)

/-- The event of the double-booking scenario: one single spot. -/
def c8Event : Event :=
  { id := "e1", title := "Charla", category := "Charlas/Conferencias",
    date := 10, time := "18:00", location := "Aula",
    center := "santo-domingo", published := true, capacity := 1 }

/-- First concurrent requester. -/
def c8UserA : User :=
  { id := "uA", name := "Alba", email := "alba@mail.com",
    center := some "santo-domingo", is_admin := false, deleted := false }

/-- Second concurrent requester. -/
def c8UserB : User :=
  { id := "uB", name := "Bora", email := "bora@mail.com",
    center := some "santo-domingo", is_admin := false, deleted := false }

/-- An empty store holding only the one-spot event. -/
def c8DB : DB :=
  { events := [c8Event], users := [c8UserA, c8UserB], reservations := [],
    checkins := [] }

/-- C8: on an event with exactly one available spot, the interleaving
read₁, read₂, write₁, write₂ of two `create_reservation` requests by
different users lets both requests pass the capacity check (both
validation phases approve) and inserts both reservations, leaving two
non-cancelled reservations on a capacity-1 event — the unsynchronized
read-count-then-insert sequence gives no guarantee against concurrent
double-booking. Sequential execution would have rejected the second
request as fully booked. -/
theorem create_double_booking :
    (get_event_by_id c8DB "e1").map Prod.snd = some 1 ∧
    (interleaved_create_pair c8DB c8UserA c8UserB "e1" 5
        "r1" "AAAA1111" "q1" "r2" "BBBB2222" "q2" "t").1 =
      CreationCheck.approved (newReservationDoc "e1" "uA" "r1" "AAAA1111" "q1" "t" none) ∧
    (interleaved_create_pair c8DB c8UserA c8UserB "e1" 5
        "r1" "AAAA1111" "q1" "r2" "BBBB2222" "q2" "t").2.1 =
      CreationCheck.approved (newReservationDoc "e1" "uB" "r2" "BBBB2222" "q2" "t" none) ∧
    (reservationCount (interleaved_create_pair c8DB c8UserA c8UserB "e1" 5
        "r1" "AAAA1111" "q1" "r2" "BBBB2222" "q2" "t").2.2 "e1" : Int) = 2 ∧
    c8Event.capacity = 1 ∧
    (create_reservation
        (apply_insert c8DB (create_reservation_check c8DB c8UserA "e1" 5
          "r1" "AAAA1111" "q1" "t" none))
        c8UserB "e1" 5 "r2" "BBBB2222" "q2" "t" none).1 =
      CreationCheck.failure 400 "Event is fully booked" := by
  refine ⟨by decide, by decide, by decide, by decide, by decide, by decide⟩

/-! ### `analytics/segmentation.py`

Float arithmetic is embedded over `ℚ`; the fitted scikit-learn estimators
(StandardScaler, PCA, KMeans) are not modelled — only the data-dependent
control flow and the hyperparameters the code computes, which is what the
claims are about. -/

/-- `self.min_users_for_ml`. -/
def min_users_for_ml : Nat := 5

/-- Floor of the square root: `int(np.sqrt(n))` (the correctly rounded
float square root never crosses an integer boundary at these magnitudes,
so truncation agrees with the exact floor). -/
def floorSqrt (n : Nat) : Nat :=
  ((List.range (n + 1)).filter fun k => decide (k * k ≤ n)).foldl max 0

/-- The dynamic cluster count:
`max(2, min(5, int(np.sqrt(num_users))))`. -/
def optimalClusters (numUsers : Nat) : Nat := max 2 (min 5 (floorSqrt numUsers))

/-- The dynamic PCA dimension: `min(3, X.shape[1], X.shape[0] - 1)`,
raised to 1 when it falls below 1. -/
def pcaComponentsCount (numUsers numFeatures : Nat) : Nat :=
  let n := min 3 (min numFeatures (numUsers - 1))
  if n < 1 then 1 else n

/-! #### `_simple_statistical_segmentation` and its pandas semantics

The two columns the function reads are embedded explicitly; a missing
column is `none`, matching `df.get(col, pd.Series([0]))` whose default is
a length-1 series at index 0. NaN (the result of index misalignment) is
`Option.none` in the computed score list; every comparison against NaN is
false, and `np.percentile` of data containing NaN is NaN. -/

/-- The rows of the feature frame handed to the statistical fallback,
restricted to the columns `_simple_statistical_segmentation` reads.
A present column has one rational per row index `0 .. nRows - 1`
(`fillna(0)` already applied, hence no NaN inside a stored column). -/
structure SmallDF where
  nRows : Nat
  total_reservations : Option (List ℚ)
  total_events_attended : Option (List ℚ)

/-- `df.get(col, pd.Series([0]))` as an index/value list: the stored
column with its row indices, or the default length-1 series `[0]` at
index 0. -/
def seriesOfColumn (c : Option (List ℚ)) : List (Nat × ℚ) :=
  match c with
  | some v => v.enum
  | none => [(0, 0)]

/-- Scalar multiplication of a series (`* 0.4`, `* 0.6`). -/
def scaleSeries (q : ℚ) (s : List (Nat × ℚ)) : List (Nat × ℚ) :=
  s.map fun p => (p.1, p.2 * q)

/-- Pandas `Series` addition reindexed to `range n`: the sum where both
operands carry the index, NaN (`none`) where either is missing. -/
def alignAdd (a b : List (Nat × ℚ)) (n : Nat) : List (Option ℚ) :=
  (List.range n).map fun i =>
    match a.lookup i, b.lookup i with
    | some x, some y => some (x + y)
    | _, _ => none

/-- `df['engagement_score'] = df.get('total_reservations', ...) * 0.4 +
df.get('total_events_attended', ...) * 0.6`. -/
def engagementScores (df : SmallDF) : List (Option ℚ) :=
  alignAdd (scaleSeries 0.4 (seriesOfColumn df.total_reservations))
    (scaleSeries 0.6 (seriesOfColumn df.total_events_attended)) df.nRows

/-- `np.percentile(xs, q)` on NaN-free data: linear interpolation over the
sorted values. -/
def percentileOfList (xs : List ℚ) (q : ℚ) : ℚ :=
  let s := List.insertionSort (fun a b : ℚ => a ≤ b) xs
  let pos : ℚ := q / 100 * ((s.length : ℚ) - 1)
  let i : Nat := (Int.floor pos).toNat
  let vi := s.getD i 0
  let vj := s.getD (i + 1) vi
  vi + (pos - (i : ℚ)) * (vj - vi)

/-- `np.percentile` over data that may contain NaN: NaN when any entry is
NaN, else the interpolated percentile. -/
def percentileOpt (xs : List (Option ℚ)) (q : ℚ) : Option ℚ :=
  if xs.any fun x => x.isNone then none
  else some (percentileOfList (xs.filterMap id) q)

/-- A float comparison `x <= y` where either side may be NaN: false in the
NaN cases. -/
def optLeB : Option ℚ → Option ℚ → Bool
  | some x, some y => decide (x ≤ y)
  | _, _ => false

/-- The `assign_cluster` closure of `_simple_statistical_segmentation`. -/
def assign_cluster (q33 q66 score : Option ℚ) : Nat :=
  if optLeB score q33 then 0
  else if optLeB score q66 then 1
  else 2

/-- The parts of the statistical-segmentation result dictionary the claims
read (`cluster` column per row, `model_type`, `silhouette_score`). -/
structure StatSegResult where
  num_users : Nat
  clusters : List Nat
  model_type : String
  silhouette : ℚ
  deriving Repr, DecidableEq

/-- Embedding of `_simple_statistical_segmentation`: engagement scoring,
then positional clusters for 1 or 2 users, percentile thresholds
otherwise. -/
def simple_statistical_segmentation (df : SmallDF) : StatSegResult :=
  let scores := engagementScores df
  let clusters :=
    if df.nRows == 1 then [0]
    else if df.nRows == 2 then [0, 1]
    else
      let q33 := percentileOpt scores 33
      let q66 := percentileOpt scores 66
      scores.map (assign_cluster q33 q66)
  { num_users := df.nRows, clusters := clusters,
    model_type := "statistical_segmentation", silhouette := -1 }

/-- The parts of the training result dictionary the claims read. On the ML
path, `pca_components` and `optimal_clusters` are the hyperparameters
handed to `PCA` and `KMeans`; on the statistical path, the full
statistical result is carried. -/
structure TrainOutcome where
  model_type : String
  pca_components : Option Nat
  optimal_clusters : Option Nat
  statistical : Option StatSegResult
  deriving Repr, DecidableEq

/-- Embedding of the control flow of `train_segmentation_model`: empty
frame error, statistical fallback under `min_users_for_ml`, empty feature
matrix error, else the ML path with its computed PCA dimension and cluster
count (the scikit-learn fitting itself is abstracted away). -/
def train_segmentation_model (df : SmallDF) (numFeatures : Nat) :
    Except String TrainOutcome :=
  if df.nRows == 0 then .error "No user data available for training"
  else if df.nRows < min_users_for_ml then
    .ok { model_type := (simple_statistical_segmentation df).model_type,
          pca_components := none, optimal_clusters := none,
          statistical := some (simple_statistical_segmentation df) }
  else if numFeatures == 0 then .error "No features available for training"
  else
    .ok { model_type := "ml_clustering",
          pca_components := some (pcaComponentsCount df.nRows numFeatures),
          optimal_clusters := some (optimalClusters df.nRows),
          statistical := none }

/-! #### `_determine_cluster_name` -/

/-- The cluster characteristics dictionary read by
`_determine_cluster_name`. In the caller `_analyze_clusters` the
`cluster_id` key is added only after naming, hence it is optional here and
defaulted to 0 (`characteristics.get('cluster_id', 0)`). -/
structure ClusterStats where
  avg_reservations : ℚ
  avg_checkin_rate : ℚ
  avg_days_since_registration : ℚ
  avg_events_per_day : ℚ
  cluster_id : Option Nat

/-- Embedding of `_determine_cluster_name`; `pageViewsMean` and
`totalReservationsMean` are the two `cluster_data` column means read by
the "Browsers" rule. -/
def determine_cluster_name (c : ClusterStats)
    (pageViewsMean totalReservationsMean : ℚ) : String :=
  if c.avg_reservations > 3 ∧ c.avg_checkin_rate > 0.8 then "VIP Members"
  else if c.avg_reservations > 1 ∧ c.avg_checkin_rate > 0.6 then
    "Regular Attendees"
  else if c.avg_days_since_registration < 7 then "New Users"
  else if pageViewsMean > totalReservationsMean * 3 then "Browsers"
  else if c.avg_days_since_registration > 30 ∧ c.avg_events_per_day < 0.1 then
    "At Risk"
  else "Segment " ++ toString (c.cluster_id.getD 0)

/-- C4: `_determine_cluster_name` is the stated ordered rule cascade, with
every earlier rule taking precedence over every later one: the "VIP
Members", "Regular Attendees", "New Users", "Browsers" and "At Risk" rules
fire in that order, and the fallback label is `Segment {cluster_id}` (with
`cluster_id` defaulted to 0 when absent, as on the actual call path). -/
theorem cluster_name_cascade (c : ClusterStats) (pv tr : ℚ) :
    (c.avg_reservations > 3 ∧ c.avg_checkin_rate > 0.8 →
      determine_cluster_name c pv tr = "VIP Members") ∧
    (¬(c.avg_reservations > 3 ∧ c.avg_checkin_rate > 0.8) →
      c.avg_reservations > 1 ∧ c.avg_checkin_rate > 0.6 →
      determine_cluster_name c pv tr = "Regular Attendees") ∧
    (¬(c.avg_reservations > 3 ∧ c.avg_checkin_rate > 0.8) →
      ¬(c.avg_reservations > 1 ∧ c.avg_checkin_rate > 0.6) →
      c.avg_days_since_registration < 7 →
      determine_cluster_name c pv tr = "New Users") ∧
    (¬(c.avg_reservations > 3 ∧ c.avg_checkin_rate > 0.8) →
      ¬(c.avg_reservations > 1 ∧ c.avg_checkin_rate > 0.6) →
      ¬(c.avg_days_since_registration < 7) →
      pv > tr * 3 →
      determine_cluster_name c pv tr = "Browsers") ∧
    (¬(c.avg_reservations > 3 ∧ c.avg_checkin_rate > 0.8) →
      ¬(c.avg_reservations > 1 ∧ c.avg_checkin_rate > 0.6) →
      ¬(c.avg_days_since_registration < 7) →
      ¬(pv > tr * 3) →
      c.avg_days_since_registration > 30 ∧ c.avg_events_per_day < 0.1 →
      determine_cluster_name c pv tr = "At Risk") ∧
    (¬(c.avg_reservations > 3 ∧ c.avg_checkin_rate > 0.8) →
      ¬(c.avg_reservations > 1 ∧ c.avg_checkin_rate > 0.6) →
      ¬(c.avg_days_since_registration < 7) →
      ¬(pv > tr * 3) →
      ¬(c.avg_days_since_registration > 30 ∧ c.avg_events_per_day < 0.1) →
      determine_cluster_name c pv tr =
        "Segment " ++ toString (c.cluster_id.getD 0)) := by
  unfold determine_cluster_name
  refine ⟨fun h1 => ?_, fun n1 h2 => ?_, fun n1 n2 h3 => ?_,
    fun n1 n2 n3 h4 => ?_, fun n1 n2 n3 n4 h5 => ?_,
    fun n1 n2 n3 n4 n5 => ?_⟩
  · rw [if_pos h1]
  · rw [if_neg n1, if_pos h2]
  · rw [if_neg n1, if_neg n2, if_pos h3]
  · rw [if_neg n1, if_neg n2, if_neg n3, if_pos h4]
  · rw [if_neg n1, if_neg n2, if_neg n3, if_neg n4, if_pos h5]
  · rw [if_neg n1, if_neg n2, if_neg n3, if_neg n4, if_neg n5]

/-- A concrete VIP-shaped cluster. -/
def c4Vip : ClusterStats :=
  { avg_reservations := 4, avg_checkin_rate := 1,
    avg_days_since_registration := 40, avg_events_per_day := 2,
    cluster_id := none }

/-- A concrete fallback-shaped cluster. -/
def c4Fallback : ClusterStats :=
  { avg_reservations := 0, avg_checkin_rate := 0,
    avg_days_since_registration := 10, avg_events_per_day := 1,
    cluster_id := none }

/-- C4 witness: the cascade applied at concrete cluster statistics — the
VIP rule fires when its guard holds, and with all guards false the name
falls back to `Segment 0` (`cluster_id` absent, as on the actual call
path). -/
theorem cluster_name_cascade_witness :
    determine_cluster_name c4Vip 1 1 = "VIP Members" ∧
    determine_cluster_name c4Fallback 1 1 = "Segment 0" :=
  ⟨(cluster_name_cascade c4Vip 1 1).1 (by norm_num [c4Vip]),
   (cluster_name_cascade c4Fallback 1 1).2.2.2.2.2
     (by norm_num [c4Fallback]) (by norm_num [c4Fallback])
     (by norm_num [c4Fallback]) (by norm_num) (by norm_num [c4Fallback])⟩

/-- C3: `train_segmentation_model` branches on the population size against
`min_users_for_ml = 5`: with at least 5 users (and a non-empty feature
matrix) it takes the ML path with `min(3, num_features, num_users - 1)`
PCA components (a value at least 1) and `max(2, min(5,
floor(sqrt(num_users))))` KMeans clusters and reports model_type
`ml_clustering`; with 1–4 users it returns the statistical segmentation
result, whose model_type is `statistical_segmentation`. -/
theorem train_branching (df : SmallDF) (nf : Nat) :
    (5 ≤ df.nRows → 1 ≤ nf →
      train_segmentation_model df nf = Except.ok
        { model_type := "ml_clustering",
          pca_components := some (min 3 (min nf (df.nRows - 1))),
          optimal_clusters := some (max 2 (min 5 (floorSqrt df.nRows))),
          statistical := none } ∧
      1 ≤ min 3 (min nf (df.nRows - 1))) ∧
    (1 ≤ df.nRows → df.nRows < 5 →
      train_segmentation_model df nf = Except.ok
        { model_type := (simple_statistical_segmentation df).model_type,
          pca_components := none, optimal_clusters := none,
          statistical := some (simple_statistical_segmentation df) } ∧
      (simple_statistical_segmentation df).model_type =
        "statistical_segmentation" ∧
      (simple_statistical_segmentation df).silhouette = -1) := by
  constructor
  · intro h5 hf
    have hmin : 1 ≤ min 3 (min nf (df.nRows - 1)) := by omega
    have h0 : ¬ (df.nRows == 0) = true := by simp; omega
    have hlt : ¬ (df.nRows < min_users_for_ml) := by
      unfold min_users_for_ml; omega
    have hf0 : ¬ (nf == 0) = true := by simp; omega
    refine ⟨?_, hmin⟩
    unfold train_segmentation_model
    rw [if_neg h0, if_neg hlt, if_neg hf0]
    have hpca : pcaComponentsCount df.nRows nf = min 3 (min nf (df.nRows - 1)) := by
      unfold pcaComponentsCount
      rw [if_neg (by omega)]
    rw [hpca]
    rfl
  · intro h1 h5
    have h0 : ¬ (df.nRows == 0) = true := by simp; omega
    have hlt : df.nRows < min_users_for_ml := by
      unfold min_users_for_ml; omega
    refine ⟨?_, rfl, rfl⟩
    unfold train_segmentation_model
    rw [if_neg h0, if_pos hlt]

/-- A 9-user frame (columns irrelevant to the ML branch). -/
def c3Large : SmallDF :=
  { nRows := 9, total_reservations := some [1, 2, 3, 4, 5, 6, 7, 8, 9],
    total_events_attended := none }

/-- A 3-user frame. -/
def c3Small : SmallDF :=
  { nRows := 3, total_reservations := some [1, 2, 3],
    total_events_attended := some [0, 1, 2] }

/-- C3 witness: the branching theorem at 9 users / 4 features (ML path,
3 PCA components, 3 clusters) and at 3 users (statistical fallback). -/
theorem train_branching_witness :
    (train_segmentation_model c3Large 4 = Except.ok
      { model_type := "ml_clustering",
        pca_components := some (min 3 (min 4 (c3Large.nRows - 1))),
        optimal_clusters := some (max 2 (min 5 (floorSqrt c3Large.nRows))),
        statistical := none } ∧
     1 ≤ min 3 (min 4 (c3Large.nRows - 1))) ∧
    (train_segmentation_model c3Small 4 = Except.ok
      { model_type := (simple_statistical_segmentation c3Small).model_type,
        pca_components := none, optimal_clusters := none,
        statistical := some (simple_statistical_segmentation c3Small) } ∧
     (simple_statistical_segmentation c3Small).model_type =
       "statistical_segmentation" ∧
     (simple_statistical_segmentation c3Small).silhouette = -1) :=
  ⟨(train_branching c3Large 4).1 (by decide) (by decide),
   (train_branching c3Small 4).2 (by decide) (by decide)⟩

/-- The feature frame the real pipeline hands to the statistical fallback
for three users with 1, 2 and 3 reservations: `extract_user_features`
produces no `total_events_attended` column at all. -/
def c5DF : SmallDF :=
  { nRows := 3, total_reservations := some [1, 2, 3],
    total_events_attended := none }

/-- C5 failing input: on the frame the pipeline actually produces (which
has no `total_events_attended` column), the default `pd.Series([0])`
aligns only with row 0, so the engagement score is NaN for every later
row, both percentiles are NaN, every NaN comparison is false, and all
three users land in cluster 2 — not the claimed 0/1/2 percentile buckets.
The `model_type` and `silhouette_score` fields still match the claim. -/
theorem statistical_segmentation_nan_collapse :
    c5DF.total_events_attended = none ∧
    (engagementScores c5DF).map Option.isNone = [false, true, true] ∧
    (percentileOpt (engagementScores c5DF) 33).isNone = true ∧
    (simple_statistical_segmentation c5DF).clusters = [2, 2, 2] ∧
    (simple_statistical_segmentation c5DF).model_type =
      "statistical_segmentation" ∧
    (simple_statistical_segmentation c5DF).silhouette = -1 := by
  refine ⟨rfl, by decide, by decide, by decide, rfl, rfl⟩

/-! ### `services/interest_detection_service.py` -/

/-- Embedding of `calculate_time_weight`. The `datetime.fromisoformat`
parse is abstracted into its outcome: `some d` is the computed
`days_ago = (utcnow - activity_dt).days`, `none` is a raised parse error
(the bare `except: return 0.1`). -/
def calculate_time_weight (daysAgo : Option Int) : ℚ :=
  match daysAgo with
  | none => 0.1
  | some d =>
    if d ≤ 30 then 1
    else if d ≤ 90 then 0.7
    else 0.4

/-- `self.category_weights.get(k, 1.0)`. -/
def categoryWeight (k : String) : ℚ :=
  if k == "reservation" then 3
  else if k == "checkin" then 5
  else if k == "view" then 1
  else if k == "search" then 2
  else if k == "share" then 2.5
  else 1

/-- The score one reservation contributes to its event's category in
`analyze_user_interests`: the reservation weight, boosted by 1.5 when the
reservation is `checked_in`, times the time weight. -/
def reservation_score_contribution (checkedIn : Bool) (daysAgo : Option Int) : ℚ :=
  (categoryWeight "reservation" * (if checkedIn then 1.5 else 1)) *
    calculate_time_weight daysAgo

/-- The score one check-in record contributes to its event's category in
`analyze_user_interests`. -/
def checkin_score_contribution (daysAgo : Option Int) : ℚ :=
  categoryWeight "checkin" * calculate_time_weight daysAgo

/-- C7: `calculate_time_weight` takes exactly the values 1.0 (age at most
30 days), 0.7 (31–90 days), 0.4 (over 90 days) and 0.1 for an unparseable
date; it is monotone non-increasing in the age, and therefore the interest
score an activity of fixed type contributes in `analyze_user_interests`
never increases as the activity ages. -/
theorem time_weight_monotone :
    (∀ d : Int, d ≤ 30 → calculate_time_weight (some d) = 1) ∧
    (∀ d : Int, 30 < d → d ≤ 90 → calculate_time_weight (some d) = 0.7) ∧
    (∀ d : Int, 90 < d → calculate_time_weight (some d) = 0.4) ∧
    calculate_time_weight none = 0.1 ∧
    (∀ a b : Int, a ≤ b →
      calculate_time_weight (some b) ≤ calculate_time_weight (some a)) ∧
    (∀ ci : Bool, ∀ a b : Int, a ≤ b →
      reservation_score_contribution ci (some b) ≤
        reservation_score_contribution ci (some a)) ∧
    (∀ a b : Int, a ≤ b →
      checkin_score_contribution (some b) ≤ checkin_score_contribution (some a)) := by
  have hmono : ∀ a b : Int, a ≤ b →
      calculate_time_weight (some b) ≤ calculate_time_weight (some a) := by
    intro a b hab
    simp only [calculate_time_weight]
    split_ifs <;> first | omega | norm_num
  refine ⟨?_, ?_, ?_, rfl, hmono, ?_, ?_⟩
  · intro d hd
    simp only [calculate_time_weight]
    rw [if_pos hd]
  · intro d hd1 hd2
    simp only [calculate_time_weight]
    rw [if_neg (by omega), if_pos hd2]
  · intro d hd
    simp only [calculate_time_weight]
    rw [if_neg (by omega), if_neg (by omega)]
  · intro ci a b hab
    unfold reservation_score_contribution
    have hw : (0 : ℚ) ≤ categoryWeight "reservation" * (if ci then 1.5 else 1) := by
      cases ci <;> norm_num [categoryWeight]
    exact mul_le_mul_of_nonneg_left (hmono a b hab) hw
  · intro a b hab
    unfold checkin_score_contribution
    have hw : (0 : ℚ) ≤ categoryWeight "checkin" := by
      simp [categoryWeight]
    exact mul_le_mul_of_nonneg_left (hmono a b hab) hw

/-- C7 witness: the weight values and monotonicity at concrete ages. -/
theorem time_weight_monotone_witness :
    calculate_time_weight (some 10) = 1 ∧
    calculate_time_weight (some 60) = 0.7 ∧
    calculate_time_weight (some 120) = 0.4 ∧
    calculate_time_weight (some 120) ≤ calculate_time_weight (some 10) ∧
    reservation_score_contribution true (some 120) ≤
      reservation_score_contribution true (some 10) ∧
    checkin_score_contribution (some 120) ≤ checkin_score_contribution (some 10) :=
  ⟨time_weight_monotone.1 10 (by norm_num),
   time_weight_monotone.2.1 60 (by norm_num) (by norm_num),
   time_weight_monotone.2.2.1 120 (by norm_num),
   time_weight_monotone.2.2.2.2.1 10 120 (by norm_num),
   time_weight_monotone.2.2.2.2.2.1 true 10 120 (by norm_num),
   time_weight_monotone.2.2.2.2.2.2 10 120 (by norm_num)⟩

/-! #### `generate_recommendations` -/

/-- An entry of the recommendation list (the fields the claim reads). -/
structure RecEntry where
  event_id : String
  title : String
  category : String
  date : Nat
  time : String
  location : String
  recommendation_score : ℚ
  deriving Repr, DecidableEq

/-- The hard-coded categories recommended to users with no interest
scores. -/
def fallbackCategories : List String :=
  ["Conciertos", "Cinema Dominicano", "Talleres"]

/-- `user.get("center", "santo-domingo") if user else "santo-domingo"`. -/
def userCenterOf (db : DB) (userId : String) : String :=
  match db.users.find? (fun u => u.id == userId) with
  | some u => u.center.getD "santo-domingo"
  | none => "santo-domingo"

/-- The keys of `interest_scores.most_common(3)` (ties resolved by list
position, matching the stability of `Counter.most_common`). -/
def topCategories (scores : List (String × ℚ)) : List String :=
  ((List.insertionSort (fun a b : String × ℚ => b.2 ≤ a.2) scores).take 3).map
    Prod.fst

/-- The top-3 interest categories, or the fallback list when there are no
interest scores. -/
def effectiveCategories (scores : List (String × ℚ)) : List String :=
  let t := topCategories scores
  if t.isEmpty then fallbackCategories else t

/-- `interest_scores.get(category, 0)`. -/
def counterGet (scores : List (String × ℚ)) (k : String) : ℚ :=
  match scores.lookup k with
  | some v => v
  | none => 0

/-- The time boost of one event: 1.2 whenever the hour prefix of a
non-empty `time` parses as an int, 1.0 otherwise. -/
def timeBoost (time : String) : ℚ :=
  if time != "" then
    match parsePyInt ((pySplit time ':').headD "") with
    | some _ => 1.2
    | none => 1
  else 1

/-- `round(x, 2)` embedded as exact rational rounding to centi-units
(Python's binary-float half-even ties are abstracted; no verified property
depends on tie behaviour). -/
def round2 (q : ℚ) : ℚ := (round (q * 100) : ℤ) / 100

/-- The recommendation entry built from one event. -/
def recEntryOf (scores : List (String × ℚ)) (e : Event) : RecEntry :=
  { event_id := e.id, title := e.title, category := e.category,
    date := e.date, time := e.time, location := e.location,
    recommendation_score :=
      round2 (counterGet scores e.category * timeBoost e.time) }

/-- The Mongo query of `generate_recommendations`: category among the
user's effective categories, the user's center, upcoming date, published;
sorted ascending by date and limited to 5. -/
def upcomingMatches (db : DB) (userId : String)
    (scores : List (String × ℚ)) (today : Nat) : List Event :=
  (List.insertionSort (fun a b : Event => a.date ≤ b.date)
    (db.events.filter fun e =>
      (effectiveCategories scores).contains e.category &&
      e.center == userCenterOf db userId &&
      decide (today ≤ e.date) && e.published)).take 5

/-- Embedding of `generate_recommendations`: score the up-to-5 matching
upcoming events, sort by score descending, return the top 3. -/
def generate_recommendations (db : DB) (userId : String)
    (interest_scores : List (String × ℚ)) (today : Nat) : List RecEntry :=
  (List.insertionSort
    (fun a b : RecEntry => b.recommendation_score ≤ a.recommendation_score)
    ((upcomingMatches db userId interest_scores today).map
      (recEntryOf interest_scores))).take 3

/-- C6: every recommendation returned by `generate_recommendations` comes
from a stored event that is upcoming (date at least today) and published,
whose center equals the requesting user's center (defaulting to
santo-domingo when the user is missing or has no center) and whose
category is among the user's top-3 interest categories (or the fixed
fallback categories when there are no interest scores); the list has at
most 3 entries and is sorted in non-increasing recommendation_score
order. -/
theorem recommendations_sound (db : DB) (uid : String)
    (scores : List (String × ℚ)) (today : Nat) :
    (generate_recommendations db uid scores today).length ≤ 3 ∧
    List.Sorted (fun a b : RecEntry =>
      b.recommendation_score ≤ a.recommendation_score)
      (generate_recommendations db uid scores today) ∧
    ∀ rec ∈ generate_recommendations db uid scores today,
      ∃ e ∈ db.events, rec.event_id = e.id ∧ rec.category = e.category ∧
        today ≤ e.date ∧ e.published = true ∧
        e.center = userCenterOf db uid ∧
        e.category ∈ effectiveCategories scores ∧
        rec.recommendation_score =
          round2 (counterGet scores e.category * timeBoost e.time) := by
  refine ⟨?_, ?_, ?_⟩
  · exact le_trans (by simp [generate_recommendations]) (le_refl 3)
  · haveI hT : IsTotal RecEntry (fun a b =>
        b.recommendation_score ≤ a.recommendation_score) :=
      ⟨fun a b => le_total _ _⟩
    haveI hR : IsTrans RecEntry (fun a b =>
        b.recommendation_score ≤ a.recommendation_score) :=
      ⟨fun _ _ _ h1 h2 => le_trans h2 h1⟩
    exact List.Pairwise.sublist (List.take_sublist _ _)
      (List.sorted_insertionSort _ _)
  · intro rec hrec
    unfold generate_recommendations at hrec
    have h2 := List.mem_of_mem_take hrec
    rw [(List.perm_insertionSort _ _).mem_iff] at h2
    obtain ⟨e, heup, rfl⟩ := List.mem_map.mp h2
    unfold upcomingMatches at heup
    have h3 := List.mem_of_mem_take heup
    rw [(List.perm_insertionSort _ _).mem_iff] at h3
    obtain ⟨hemem, hpred⟩ := List.mem_filter.mp h3
    simp only [Bool.and_eq_true, beq_iff_eq, decide_eq_true_eq] at hpred
    obtain ⟨⟨⟨hcat, hcen⟩, hdate⟩, hpub⟩ := hpred
    exact ⟨e, hemem, rfl, rfl, hdate, hpub, hcen, List.elem_iff.mp hcat, rfl⟩

/-- A user based in Santiago. -/
def c6User : User :=
  { id := "u1", name := "Caro", email := "caro@mail.com",
    center := some "santiago", is_admin := false, deleted := false }

/-- An upcoming published concert in Santiago. -/
def c6Event : Event :=
  { id := "e1", title := "Gala", category := "Conciertos", date := 10,
    time := "19:00", location := "Teatro", center := "santiago",
    published := true, capacity := 100 }

/-- A store with the one matching event. -/
def c6DB : DB :=
  { events := [c6Event], users := [c6User], reservations := [],
    checkins := [] }

/-- Interest scores naming a single category. -/
def c6Scores : List (String × ℚ) := [("Conciertos", 4)]

/-- C6 witness: the soundness theorem applied to the single
recommendation produced on a concrete store. -/
theorem recommendations_sound_witness :
    ∃ e ∈ c6DB.events, (recEntryOf c6Scores c6Event).event_id = e.id ∧
      (recEntryOf c6Scores c6Event).category = e.category ∧
      5 ≤ e.date ∧ e.published = true ∧
      e.center = userCenterOf c6DB "u1" ∧
      e.category ∈ effectiveCategories c6Scores ∧
      (recEntryOf c6Scores c6Event).recommendation_score =
        round2 (counterGet c6Scores e.category * timeBoost e.time) :=
  (recommendations_sound c6DB "u1" c6Scores 5).2.2 (recEntryOf c6Scores c6Event)
    (List.mem_cons_self _ _)

end CCB
